import Mathlib

/-!
# Verification of ComfyUI-ParamNodes (`nodes.py`)

A shallow embedding of the plugin nodes in `nodes.py`:

* the scalar parameter nodes (`ParamString`, `ParamInt`, `ParamFloat`,
  `ParamBoolean`, `ParamUniversal`), each a one-method identity returning a
  1-tuple;
* the `AnyType` string subtype whose `__ne__` always returns `False`;
* the `HelperModelSwitch.switch` boolean selector;
* the `ParamImage.load_image` routine: POSIX path resolution against the
  host's base directory, existence check, multi-frame decode, EXIF
  orientation normalisation, RGB conversion with `/255` normalisation,
  alpha-channel extraction into a `1 - alpha` mask (or a zero 64×64 plane),
  and stacking of the per-frame tensors with `torch.cat`.

Floating-point samples are modelled as exact rationals (every sample the
code produces is an 8-bit integer divided by 255, which `float32`
represents an exact arithmetic on in this range). Tensors are nested
lists: an image tensor is `List (Grid (List ℚ))` — frames, rows, columns,
channels — and a mask tensor is `List (Grid ℚ)`. The host environment
(`folder_paths.base_path`, the filesystem, and the PIL decoder) is a
`Host` record of pure functions.
-/

set_option autoImplicit false

/-- The Python 1-tuple `(value,)` that every node entry point returns. -/
structure Tuple1 (α : Type) where
  fst : α
  deriving DecidableEq, Repr

/-- `AnyType(str)` from `nodes.py`: a string specialisation used as a
wildcard type tag.  Its only payload is the underlying string. -/
structure AnyType where
  str : String
  deriving DecidableEq, Repr

/-- `AnyType.__ne__`: returns `False` for every right operand. -/
def AnyType.ne {α : Type} (_self : AnyType) (_value : α) : Bool :=
  false

/-- `any = AnyType("*")`. -/
def any : AnyType :=
  ⟨"*"⟩

namespace ParamString

/-- `ParamString.get_value`: return the configured value as a 1-tuple. -/
def get_value {α : Type} (value : α) : Tuple1 α :=
  ⟨value⟩

end ParamString

namespace ParamInt

/-- `ParamInt.get_value`: return the configured value as a 1-tuple. -/
def get_value {α : Type} (value : α) : Tuple1 α :=
  ⟨value⟩

end ParamInt

namespace ParamFloat

/-- `ParamFloat.get_value`: return the configured value as a 1-tuple. -/
def get_value {α : Type} (value : α) : Tuple1 α :=
  ⟨value⟩

end ParamFloat

namespace ParamBoolean

/-- `ParamBoolean.get_value`: return the configured value as a 1-tuple. -/
def get_value {α : Type} (value : α) : Tuple1 α :=
  ⟨value⟩

end ParamBoolean

namespace ParamUniversal

/-- `ParamUniversal.get_value`: return the configured value as a 1-tuple. -/
def get_value {α : Type} (value : α) : Tuple1 α :=
  ⟨value⟩

end ParamUniversal

namespace HelperModelSwitch

/-- `HelperModelSwitch.switch`: `(model_b,)` if `select_b` else `(model_a,)`. -/
def switch {α : Type} (model_a model_b : α) (select_b : Bool) : Tuple1 α :=
  if select_b then ⟨model_b⟩ else ⟨model_a⟩

end HelperModelSwitch

/-! ## POSIX path model (`os.path.isabs`, `os.path.join`) -/

/-- `os.path.isabs` on POSIX: the path starts with `/`. -/
def isabs (p : String) : Bool :=
  p.data.head? = some '/'

/-- Whether a path ends with the separator `/`. -/
def endsInSep (p : String) : Bool :=
  p.data.getLast? = some '/'

/-- `os.path.join(a, b)` on POSIX, two-argument form: if `b` is absolute it
replaces `a`; otherwise `b` is appended to `a`, with a `/` inserted unless
`a` is empty or already ends in `/`. -/
def pathJoin (a b : String) : String :=
  if isabs b then b
  else if a = "" || endsInSep a then a ++ b
  else a ++ "/" ++ b

/-! ## PIL frame model

A decoded frame (one element of `ImageSequence.Iterator(img)`) is a
rectangular RGB pixel grid (8-bit samples), an optional alpha channel
(`'A' in i.getbands()` / `i.getchannel('A')`), and the EXIF orientation
tag consumed by `ImageOps.exif_transpose`. -/

/-- A 2-dimensional array as a list of rows. -/
abbrev Grid (α : Type) : Type :=
  List (List α)

/-- One decoded frame of a PIL image. -/
structure PILFrame where
  /-- EXIF orientation tag (1–8; any other value means no transposition). -/
  orientation : Nat
  /-- RGB samples after `convert("RGB")`, each channel in `0..255`. -/
  rgb : Grid (Nat × Nat × Nat)
  /-- The `'A'` band, present iff the frame has an alpha channel. -/
  alphaCh : Option (Grid Nat)
  deriving DecidableEq, Repr

/-- Mirror each row (PIL `FLIP_LEFT_RIGHT`). -/
def flipLR {α : Type} (g : Grid α) : Grid α :=
  g.map List.reverse

/-- Reverse the rows (PIL `FLIP_TOP_BOTTOM`). -/
def flipTB {α : Type} (g : Grid α) : Grid α :=
  g.reverse

/-- PIL `ROTATE_180`. -/
def rot180 {α : Type} (g : Grid α) : Grid α :=
  flipTB (flipLR g)

/-- Apply one EXIF orientation tag to a pixel grid, following the method
table of `PIL.ImageOps.exif_transpose` (2 ↦ FLIP_LEFT_RIGHT, 3 ↦
ROTATE_180, 4 ↦ FLIP_TOP_BOTTOM, 5 ↦ TRANSPOSE, 6 ↦ ROTATE_270,
7 ↦ TRANSVERSE, 8 ↦ ROTATE_90; anything else is the identity). -/
def applyOrientation {α : Type} (o : Nat) (g : Grid α) : Grid α :=
  if o = 2 then flipLR g
  else if o = 3 then rot180 g
  else if o = 4 then flipTB g
  else if o = 5 then List.transpose g
  else if o = 6 then List.transpose (flipTB g)
  else if o = 7 then rot180 (List.transpose g)
  else if o = 8 then (List.transpose g).reverse
  else g

/-- `ImageOps.exif_transpose`: normalise the pixel orientation of a frame
(both the colour grid and the alpha band) and clear the orientation tag. -/
def exif_transpose (f : PILFrame) : PILFrame :=
  ⟨1, applyOrientation f.orientation f.rgb,
    f.alphaCh.map (applyOrientation f.orientation)⟩

/-! ## Tensor construction -/

/-- `np.array(image).astype(np.float32) / 255.0` on one RGB pixel: the
channel axis as a 3-element list of normalised samples. -/
def normalizePixel (p : Nat × Nat × Nat) : List ℚ :=
  [(p.1 : ℚ) / 255, (p.2.1 : ℚ) / 255, (p.2.2 : ℚ) / 255]

/-- The (height, width, 3) array built from a transposed frame's RGB grid. -/
def frameImage (i : PILFrame) : Grid (List ℚ) :=
  i.rgb.map (fun row => row.map normalizePixel)

/-- `torch.zeros((64, 64), dtype=torch.float32, device="cpu")`. -/
def zeros64 : Grid ℚ :=
  List.replicate 64 (List.replicate 64 0)

/-- The (height, width) mask built from a transposed frame:
`1.0 - alpha / 255.0` when the `'A'` band is present, else `zeros64`. -/
def frameMask (i : PILFrame) : Grid ℚ :=
  match i.alphaCh with
  | some a => a.map (fun row => row.map (fun (v : Nat) => 1 - (v : ℚ) / 255))
  | none => zeros64

/-- Dimensions of a 2-dimensional array: (number of rows, length of the
first row).  This is the shape information `torch.cat` compares along the
non-concatenated axes for the rectangular tensors the loader builds. -/
def gridDims {α : Type} (g : Grid α) : Nat × Nat :=
  (g.length, (g.head?.getD []).length)

/-- `torch.cat(ts, dim=0)` on a list of tensors, each a list of `α`-shaped
slices along axis 0: fails (raises) on an empty input or when the slices
disagree on their shape, otherwise concatenates. -/
def torchCat {α β : Type} [DecidableEq β] (shape : α → β) (ts : List (List α)) :
    Option (List α) :=
  match ts.flatten with
  | [] => none
  | x :: xs => if xs.all (fun y => decide (shape y = shape x)) then some (x :: xs) else none

/-! ## The host environment -/

/-- The host-provided environment `load_image` runs against:
`folder_paths.base_path`, `os.path.exists`, and the PIL decoder
(`Image.open` + `ImageSequence.Iterator`, `none` meaning the open/decode
raises). -/
structure Host where
  base_path : String
  pathExists : String → Bool
  openImage : String → Option (List PILFrame)

/-- Replace a host's decoder (used to state that an outcome does not
depend on decoding). -/
def withOpenImage (h : Host) (f : String → Option (List PILFrame)) : Host :=
  ⟨h.base_path, h.pathExists, f⟩

/-- Replace a host's base directory. -/
def withBase (h : Host) (b : String) : Host :=
  ⟨b, h.pathExists, h.openImage⟩

/-- The ways `load_image` can raise. -/
inductive LoadError where
  /-- `FileNotFoundError(f"Image not found at path: {image_path}")`. -/
  | fileNotFound (msg : String)
  /-- An error propagating out of `Image.open` / frame decoding. -/
  | decodeError
  /-- `torch.cat` raising on mismatched shapes. -/
  | shapeMismatch
  /-- `output_images[0]` raising on an empty frame list. -/
  | indexError
  deriving DecidableEq, Repr

/-- An image tensor: frames × rows × columns × channels. -/
abbrev ImageTensor : Type :=
  List (Grid (List ℚ))

/-- A mask tensor: frames × rows × columns. -/
abbrev MaskTensor : Type :=
  List (Grid ℚ)

namespace ParamImage

/-- `ParamImage.load_image`, transcribed from `nodes.py`:
resolve a relative path against `folder_paths.base_path`, raise
`FileNotFoundError` when the resolved path does not exist, decode every
frame (`exif_transpose`, `convert("RGB")`, `/255`, alpha → `1 - alpha`
mask or zero 64×64), and stack images and masks with `torch.cat` when
there is more than one frame. -/
def load_image (host : Host) (image_path : String) :
    Except LoadError (ImageTensor × MaskTensor) :=
  let image_path := if isabs image_path = false
    then pathJoin host.base_path image_path
    else image_path
  if host.pathExists image_path = false then
    Except.error (LoadError.fileNotFound ("Image not found at path: " ++ image_path))
  else
    match host.openImage image_path with
    | none => Except.error LoadError.decodeError
    | some img =>
      let output_images := img.map (fun f => [frameImage (exif_transpose f)])
      let output_masks := img.map (fun f => [frameMask (exif_transpose f)])
      if output_images.length > 1 then
        match torchCat gridDims output_images, torchCat gridDims output_masks with
        | some output_image, some output_mask => Except.ok (output_image, output_mask)
        | _, _ => Except.error LoadError.shapeMismatch
      else
        match output_images.head?, output_masks.head? with
        | some output_image, some output_mask => Except.ok (output_image, output_mask)
        | _, _ => Except.error LoadError.indexError

/-- The path-resolution step of `load_image` in isolation: a relative path
is joined to the base directory, an absolute path is kept as given. -/
def resolve (base p : String) : String :=
  if isabs p = false then pathJoin base p else p

/-- The body of `load_image` after path resolution, taking the already
resolved path; it mentions neither the base directory nor the resolution
step. -/
def loadCore (pathExists : String → Bool) (openImage : String → Option (List PILFrame))
    (image_path : String) : Except LoadError (ImageTensor × MaskTensor) :=
  if pathExists image_path = false then
    Except.error (LoadError.fileNotFound ("Image not found at path: " ++ image_path))
  else
    match openImage image_path with
    | none => Except.error LoadError.decodeError
    | some img =>
      if (img.map (fun f => [frameImage (exif_transpose f)])).length > 1 then
        match torchCat gridDims (img.map (fun f => [frameImage (exif_transpose f)])),
            torchCat gridDims (img.map (fun f => [frameMask (exif_transpose f)])) with
        | some output_image, some output_mask => Except.ok (output_image, output_mask)
        | _, _ => Except.error LoadError.shapeMismatch
      else
        match (img.map (fun f => [frameImage (exif_transpose f)])).head?,
            (img.map (fun f => [frameMask (exif_transpose f)])).head? with
        | some output_image, some output_mask => Except.ok (output_image, output_mask)
        | _, _ => Except.error LoadError.indexError

/-- A variant of `load_image` that performs the `torch.cat` stacking step
even when there is exactly one frame, instead of taking
`output_images[0]` / `output_masks[0]`. -/
def load_image_stacked (host : Host) (image_path : String) :
    Except LoadError (ImageTensor × MaskTensor) :=
  let image_path := if isabs image_path = false
    then pathJoin host.base_path image_path
    else image_path
  if host.pathExists image_path = false then
    Except.error (LoadError.fileNotFound ("Image not found at path: " ++ image_path))
  else
    match host.openImage image_path with
    | none => Except.error LoadError.decodeError
    | some img =>
      let output_images := img.map (fun f => [frameImage (exif_transpose f)])
      let output_masks := img.map (fun f => [frameMask (exif_transpose f)])
      match torchCat gridDims output_images, torchCat gridDims output_masks with
      | some output_image, some output_mask => Except.ok (output_image, output_mask)
      | _, _ => Except.error LoadError.shapeMismatch

end ParamImage

/-! ## Grid predicates and fixtures for the closed witness statements -/

/-- A fixed host used by the closed witness statements: an absolute base
directory, an always-failing existence check, and no decoder. -/
def hostW4 : Host :=
  ⟨"/base", fun _ => false, fun _ => none⟩

/-- A two-frame image file (both frames carrying an alpha band) behind a
fixed host, for the closed frame-count witness. -/
def frameW3a : PILFrame :=
  ⟨1, [[(0, 0, 0)]], some [[0]]⟩

def frameW3b : PILFrame :=
  ⟨1, [[(255, 255, 255)]], some [[255]]⟩

def hostW3 : Host :=
  ⟨"/base", fun _ => true, fun _ => some [frameW3a, frameW3b]⟩

def w3oi : ImageTensor :=
  [frameW3a, frameW3b].map (fun f => frameImage (exif_transpose f))

def w3om : MaskTensor :=
  [frameW3a, frameW3b].map (fun f => frameMask (exif_transpose f))

/-- A single-frame image with an alpha band behind a fixed host, for the
closed mask-semantics witness. -/
def frameW5 : PILFrame :=
  ⟨1, [[(10, 20, 30)]], some [[51]]⟩

def hostW5 : Host :=
  ⟨"/base", fun _ => true, fun _ => some [frameW5]⟩

def w5oi : ImageTensor :=
  [frameW5].map (fun f => frameImage (exif_transpose f))

def w5om : MaskTensor :=
  [frameW5].map (fun f => frameMask (exif_transpose f))

/-- A rectangular 2-dimensional array of a given height and width. -/
abbrev rectGrid {α : Type} (g : Grid α) (H W : Nat) : Prop :=
  g.length = H ∧ ∀ row ∈ g, row.length = W

/-- All colour samples of a grid are 8-bit (at most 255). -/
abbrev rgbBounded (g : Grid (Nat × Nat × Nat)) : Prop :=
  ∀ row ∈ g, ∀ q ∈ row, q.1 ≤ 255 ∧ q.2.1 ≤ 255 ∧ q.2.2 ≤ 255

/-- A single-frame image with an alpha band behind a fixed host, for the
closed tensor-shape witness. -/
def frameW7 : PILFrame :=
  ⟨1, [[(10, 20, 30)]], some [[128]]⟩

def hostW7 : Host :=
  ⟨"/base", fun _ => true, fun _ => some [frameW7]⟩

def w7oi : ImageTensor :=
  [frameW7].map (fun f => frameImage (exif_transpose f))

def w7om : MaskTensor :=
  [frameW7].map (fun f => frameMask (exif_transpose f))

def frameW8 : PILFrame :=
  ⟨1, [[(1, 2, 3)]], some [[100]]⟩

def hostW8 : Host :=
  ⟨"/base", fun _ => true, fun _ => some [frameW8]⟩

/-- A 2×2 single-frame image with no alpha channel behind a fixed host. -/
def opaque2x2 : PILFrame :=
  ⟨1, [[(10, 20, 30), (40, 50, 60)], [(70, 80, 90), (100, 110, 120)]], none⟩

def hostW10 : Host :=
  ⟨"/base", fun _ => true, fun _ => some [opaque2x2]⟩

/-! ## Helper lemmas -/

theorem flatten_map_singleton {α β : Type} (f : α → β) (l : List α) :
    (l.map (fun a => [f a])).flatten = l.map f := by
  induction l with
  | nil => rfl
  | cons a t ih => simp [ih]

theorem torchCat_some {α β : Type} [DecidableEq β] (shape : α → β)
    (ts : List (List α)) (o : List α) (h : torchCat shape ts = some o) :
    o = ts.flatten := by
  unfold torchCat at h
  split at h
  · exact absurd h (by simp)
  · rename_i x xs hf
    split at h
    · rw [hf]
      exact (Option.some.inj h).symm
    · exact absurd h (by simp)

theorem torchCat_singleton {α β : Type} [DecidableEq β] (shape : α → β) (x : α) :
    torchCat shape [[x]] = some [x] := by
  simp [torchCat]

namespace ParamImage

theorem load_image_eq_core (host : Host) (p : String) :
    load_image host p = loadCore host.pathExists host.openImage (resolve host.base_path p) :=
  rfl

theorem load_image_stacked_eq (host : Host) (p : String) :
    load_image_stacked host p =
      (if host.pathExists (resolve host.base_path p) = false then
        Except.error (LoadError.fileNotFound
          ("Image not found at path: " ++ resolve host.base_path p))
      else
        match host.openImage (resolve host.base_path p) with
        | none => Except.error LoadError.decodeError
        | some img =>
          match torchCat gridDims (img.map (fun f => [frameImage (exif_transpose f)])),
              torchCat gridDims (img.map (fun f => [frameMask (exif_transpose f)])) with
          | some output_image, some output_mask => Except.ok (output_image, output_mask)
          | _, _ => Except.error LoadError.shapeMismatch) :=
  rfl

theorem loadCore_ok_spec (pe : String → Bool) (op : String → Option (List PILFrame))
    (p : String) (oi : ImageTensor) (om : MaskTensor)
    (h : loadCore pe op p = Except.ok (oi, om)) :
    ∃ img : List PILFrame, op p = some img ∧ img ≠ [] ∧
      oi = img.map (fun f => frameImage (exif_transpose f)) ∧
      om = img.map (fun f => frameMask (exif_transpose f)) := by
  unfold loadCore at h
  split at h
  · exact absurd h (by simp)
  · rename_i hex
    split at h
    · exact absurd h (by simp)
    · rename_i img hop
      refine ⟨img, hop, ?_, ?_⟩
      · intro hnil
        subst hnil
        simp at h
      · split at h
        · rename_i hlen
          split at h
          · rename_i oi' om' hc1 hc2
            have h1 := torchCat_some _ _ _ hc1
            have h2 := torchCat_some _ _ _ hc2
            rw [flatten_map_singleton] at h1
            rw [flatten_map_singleton] at h2
            have e : oi' = oi ∧ om' = om := by
              injection h with h'
              injection h' with e1 e2
              exact ⟨e1, e2⟩
            exact ⟨by rw [← e.1, h1], by rw [← e.2, h2]⟩
          · exact absurd h (by simp)
        · rename_i hlen
          cases img with
          | nil => simp at h
          | cons f rest =>
            have hrest : rest = [] := by
              simp at hlen
              exact hlen
            subst hrest
            simp at h
            exact ⟨by simp [← h.1], by simp [← h.2]⟩

theorem load_image_ok_spec (host : Host) (p : String) (oi : ImageTensor) (om : MaskTensor)
    (h : load_image host p = Except.ok (oi, om)) :
    ∃ img : List PILFrame,
      host.openImage (resolve host.base_path p) = some img ∧ img ≠ [] ∧
      oi = img.map (fun f => frameImage (exif_transpose f)) ∧
      om = img.map (fun f => frameMask (exif_transpose f)) := by
  rw [load_image_eq_core] at h
  exact loadCore_ok_spec _ _ _ _ _ h

end ParamImage

/-! ## Claim theorems: scalar nodes, switch, any-type -/

/-- C1: every scalar parameter node's `get_value` entry point returns its
value unchanged as the sole element of the returned 1-tuple; being a total
pure function of the value, it has no side effects and no failure mode. -/
theorem param_nodes_get_value_identity :
    ∀ (α : Type) (v : α),
      ParamString.get_value v = ⟨v⟩ ∧ ParamInt.get_value v = ⟨v⟩ ∧
      ParamFloat.get_value v = ⟨v⟩ ∧ ParamBoolean.get_value v = ⟨v⟩ ∧
      ParamUniversal.get_value v = ⟨v⟩ ∧ (ParamString.get_value v).fst = v ∧
      (ParamInt.get_value v).fst = v ∧ (ParamFloat.get_value v).fst = v ∧
      (ParamBoolean.get_value v).fst = v ∧ (ParamUniversal.get_value v).fst = v :=
  fun _ _ => ⟨rfl, rfl, rfl, rfl, rfl, rfl, rfl, rfl, rfl, rfl⟩

/-- C2: `HelperModelSwitch.switch` returns the second value when the flag
is true and the first when it is false, for every pair of opaque values;
it is a total pure function, so it has no side effects or failure mode. -/
theorem helper_model_switch_select :
    ∀ (α : Type) (a b : α),
      HelperModelSwitch.switch a b true = ⟨b⟩ ∧
      HelperModelSwitch.switch a b false = ⟨a⟩ :=
  fun _ _ _ => ⟨rfl, rfl⟩

/-- C9: the any-type marker is the string "*" wrapped in a type whose
inequality test returns `false` against every right operand, and which
carries no data beyond its underlying string. -/
theorem any_type_ne_always_false :
    (∀ (α : Type) (x : α), AnyType.ne any x = false) ∧
    any.str = "*" ∧
    (∀ a b : AnyType, a.str = b.str → a = b) := by
  refine ⟨fun _ _ => rfl, rfl, ?_⟩
  intro a b h
  cases a; cases b; cases h; rfl

theorem any_type_ne_always_false_witness :
    AnyType.ne any (0 : Nat) = false ∧ any.str = "*" :=
  ⟨any_type_ne_always_false.1 Nat 0, any_type_ne_always_false.2.1⟩

/-! ## Path-resolution lemmas -/

theorem isabs_append (a b : String) (ha : isabs a = true) : isabs (a ++ b) = true := by
  unfold isabs at *
  rw [String.data_append]
  cases h : a.data with
  | nil => rw [h] at ha; simp at ha
  | cons c t =>
    rw [h] at ha
    simp at ha
    simp [ha]

theorem isabs_pathJoin (a b : String) (ha : isabs a = true) (hb : isabs b = false) :
    isabs (pathJoin a b) = true := by
  unfold pathJoin
  simp only [hb, Bool.false_eq_true, if_false]
  split
  · exact isabs_append a b ha
  · exact isabs_append (a ++ "/") b (isabs_append a "/" ha)

theorem isabs_resolve (base p : String) (hb : isabs base = true) :
    isabs (ParamImage.resolve base p) = true := by
  unfold ParamImage.resolve
  by_cases hp : isabs p = false
  · rw [if_pos hp]
    exact isabs_pathJoin base p hb hp
  · rw [if_neg hp]
    revert hp
    cases isabs p <;> simp

/-- C6: `load_image` factors through path resolution — the body it runs
after resolving (`loadCore`) receives the resolved path and never sees the
base directory; a relative path resolves to its join with the base
directory, and an absolute path resolves to itself, so that the result is
independent of the base directory. -/
theorem load_image_path_resolution (host : Host) (p : String) :
    ParamImage.load_image host p =
      ParamImage.loadCore host.pathExists host.openImage
        (ParamImage.resolve host.base_path p) ∧
    (isabs p = true →
      ParamImage.resolve host.base_path p = p ∧
      ∀ b : String, ParamImage.load_image (withBase host b) p =
        ParamImage.load_image host p) ∧
    (isabs p = false →
      ParamImage.resolve host.base_path p = pathJoin host.base_path p) := by
  refine ⟨ParamImage.load_image_eq_core host p, ?_, ?_⟩
  · intro hp
    have hres : ∀ b : String, ParamImage.resolve b p = p := by
      intro b
      unfold ParamImage.resolve
      simp [hp]
    refine ⟨hres _, fun b => ?_⟩
    rw [ParamImage.load_image_eq_core, ParamImage.load_image_eq_core]
    show ParamImage.loadCore host.pathExists host.openImage (ParamImage.resolve b p) = _
    rw [hres b, hres host.base_path]
  · intro hp
    unfold ParamImage.resolve
    rw [if_pos hp]

theorem load_image_path_resolution_witness :
    ParamImage.resolve hostW4.base_path "input/a.png" = pathJoin "/base" "input/a.png" ∧
    ParamImage.resolve hostW4.base_path "/abs/a.png" = "/abs/a.png" :=
  ⟨(load_image_path_resolution hostW4 "input/a.png").2.2 (by decide),
   ((load_image_path_resolution hostW4 "/abs/a.png").2.1 (by decide)).1⟩

/-! ## Missing-file error -/

theorem loadCore_fileNotFound_iff (pe : String → Bool)
    (op : String → Option (List PILFrame)) (r : String) :
    (∃ msg, ParamImage.loadCore pe op r = Except.error (LoadError.fileNotFound msg)) ↔
      pe r = false := by
  constructor
  · rintro ⟨msg, h⟩
    by_contra hne
    unfold ParamImage.loadCore at h
    rw [if_neg hne] at h
    split at h
    · injection h with h'
      exact LoadError.noConfusion h'
    · split at h
      · split at h
        · exact Except.noConfusion h
        · injection h with h'
          exact LoadError.noConfusion h'
      · split at h
        · exact Except.noConfusion h
        · injection h with h'
          exact LoadError.noConfusion h'
  · intro hpe
    refine ⟨"Image not found at path: " ++ r, ?_⟩
    unfold ParamImage.loadCore
    rw [if_pos hpe]

/-- C4: `load_image` raises `FileNotFoundError` exactly when the resolved
path fails the existence check; the message appends the resolved path
(absolute whenever the host's base directory is absolute), and in that
case the result does not depend on the decoder, which is never consulted. -/
theorem load_image_missing_file (host : Host) (p : String)
    (hb : isabs host.base_path = true) :
    ((∃ msg, ParamImage.load_image host p = Except.error (LoadError.fileNotFound msg)) ↔
      host.pathExists (ParamImage.resolve host.base_path p) = false) ∧
    (host.pathExists (ParamImage.resolve host.base_path p) = false →
      ParamImage.load_image host p =
        Except.error (LoadError.fileNotFound
          ("Image not found at path: " ++ ParamImage.resolve host.base_path p)) ∧
      isabs (ParamImage.resolve host.base_path p) = true ∧
      ∀ dec : String → Option (List PILFrame),
        ParamImage.load_image (withOpenImage host dec) p =
          ParamImage.load_image host p) := by
  constructor
  · rw [ParamImage.load_image_eq_core]
    exact loadCore_fileNotFound_iff _ _ _
  · intro hne
    refine ⟨?_, isabs_resolve _ _ hb, ?_⟩
    · rw [ParamImage.load_image_eq_core]
      unfold ParamImage.loadCore
      rw [if_pos hne]
    · intro dec
      rw [ParamImage.load_image_eq_core, ParamImage.load_image_eq_core]
      show ParamImage.loadCore host.pathExists dec (ParamImage.resolve host.base_path p) = _
      unfold ParamImage.loadCore
      simp only [if_pos hne]

theorem load_image_missing_file_witness :
    isabs hostW4.base_path = true ∧
    ParamImage.load_image hostW4 "input/a.png" =
      Except.error (LoadError.fileNotFound
        ("Image not found at path: " ++ ParamImage.resolve hostW4.base_path "input/a.png")) ∧
    ParamImage.resolve hostW4.base_path "input/a.png" = "/base/input/a.png" :=
  ⟨by decide,
   ((load_image_missing_file hostW4 "input/a.png" (by decide)).2 (by decide)).1,
   by decide⟩

/-! ## Frame count, order, and mask semantics -/

/-- C3: whenever `load_image` returns, the image tensor and the mask
tensor both have exactly one entry per decoded frame — the same count —
and the entries are the per-frame image and mask in source iteration
order. -/
theorem load_image_frame_count (host : Host) (p : String)
    (oi : ImageTensor) (om : MaskTensor) (img : List PILFrame)
    (hok : ParamImage.load_image host p = Except.ok (oi, om))
    (hopen : host.openImage (ParamImage.resolve host.base_path p) = some img) :
    oi.length = img.length ∧ om.length = img.length ∧
    oi = img.map (fun f => frameImage (exif_transpose f)) ∧
    om = img.map (fun f => frameMask (exif_transpose f)) := by
  obtain ⟨img', h1, _, h3, h4⟩ := ParamImage.load_image_ok_spec host p oi om hok
  rw [hopen] at h1
  injection h1 with h1
  subst h1
  exact ⟨by rw [h3]; simp, by rw [h4]; simp, h3, h4⟩

theorem load_image_frame_count_witness :
    ParamImage.load_image hostW3 "/img.gif" = Except.ok (w3oi, w3om) ∧
    w3oi.length = 2 ∧ w3om.length = 2 := by
  have hok : ParamImage.load_image hostW3 "/img.gif" = Except.ok (w3oi, w3om) := by rfl
  have h := load_image_frame_count hostW3 "/img.gif" w3oi w3om
    [frameW3a, frameW3b] hok (by decide)
  exact ⟨hok, h.1, h.2.1⟩

/-- C5: frame by frame (the relation below pairs the decoded frames with
the mask tensor's entries), the returned mask is `1 - alpha / 255`
elementwise when the (orientation-normalised) frame has an alpha band,
and the all-zero 64×64 plane when it has none. -/
theorem load_image_mask_semantics (host : Host) (p : String)
    (oi : ImageTensor) (om : MaskTensor) (img : List PILFrame)
    (hok : ParamImage.load_image host p = Except.ok (oi, om))
    (hopen : host.openImage (ParamImage.resolve host.base_path p) = some img) :
    List.Forall₂ (fun f m =>
      ((exif_transpose f).alphaCh = none →
        m = List.replicate 64 (List.replicate 64 (0 : ℚ))) ∧
      ∀ a : Grid Nat, (exif_transpose f).alphaCh = some a →
        List.Forall₂ (fun (arow : List Nat) (mrow : List ℚ) =>
          List.Forall₂ (fun (v : Nat) (x : ℚ) => x = 1 - (v : ℚ) / 255) arow mrow) a m)
      img om := by
  obtain ⟨img', h1, _, _, h4⟩ := ParamImage.load_image_ok_spec host p oi om hok
  rw [hopen] at h1
  injection h1 with h1
  subst h1
  rw [h4, List.forall₂_map_right_iff]
  rw [List.forall₂_same]
  intro f _
  constructor
  · intro hnone
    simp [frameMask, hnone, zeros64]
  · intro a ha
    simp only [frameMask, ha]
    rw [List.forall₂_map_right_iff, List.forall₂_same]
    intro row _
    rw [List.forall₂_map_right_iff, List.forall₂_same]
    intro v _
    rfl

theorem load_image_mask_semantics_witness :
    ParamImage.load_image hostW5 "/a.png" = Except.ok (w5oi, w5om) ∧
    List.Forall₂ (fun f m =>
      ((exif_transpose f).alphaCh = none →
        m = List.replicate 64 (List.replicate 64 (0 : ℚ))) ∧
      ∀ a : Grid Nat, (exif_transpose f).alphaCh = some a →
        List.Forall₂ (fun (arow : List Nat) (mrow : List ℚ) =>
          List.Forall₂ (fun (v : Nat) (x : ℚ) => x = 1 - (v : ℚ) / 255) arow mrow) a m)
      [frameW5] w5om := by
  have hok : ParamImage.load_image hostW5 "/a.png" = Except.ok (w5oi, w5om) := by rfl
  exact ⟨hok, load_image_mask_semantics hostW5 "/a.png" w5oi w5om [frameW5] hok rfl⟩

/-! ## Tensor shape and value range -/

/-- C7: the image tensor `load_image` returns has one frame entry per
decoded frame, and — the decoded frames being rectangular `H × W` images
with 8-bit samples — every frame entry is an `H × W × 3` array whose
values are integers `0..255` divided by 255, hence all within `[0, 1]`. -/
theorem load_image_tensor_shape (host : Host) (p : String)
    (oi : ImageTensor) (om : MaskTensor) (img : List PILFrame) (H W : Nat)
    (hok : ParamImage.load_image host p = Except.ok (oi, om))
    (hopen : host.openImage (ParamImage.resolve host.base_path p) = some img)
    (hrect : ∀ f ∈ img, rectGrid (exif_transpose f).rgb H W)
    (hbound : ∀ f ∈ img, rgbBounded (exif_transpose f).rgb) :
    oi.length = img.length ∧
    ∀ g ∈ oi, g.length = H ∧
      ∀ row ∈ g, row.length = W ∧
        ∀ px ∈ row, px.length = 3 ∧
          ∀ v ∈ px, 0 ≤ v ∧ v ≤ 1 ∧ ∃ n : Nat, n ≤ 255 ∧ v = (n : ℚ) / 255 := by
  have key : ∀ n : Nat, n ≤ 255 →
      0 ≤ (n : ℚ) / 255 ∧ (n : ℚ) / 255 ≤ 1 ∧
      ∃ m : Nat, m ≤ 255 ∧ (n : ℚ) / 255 = (m : ℚ) / 255 := by
    intro n hn
    refine ⟨by positivity, ?_, n, hn, rfl⟩
    rw [div_le_one (by norm_num)]
    exact_mod_cast hn
  obtain ⟨img', h1, _, h3, _⟩ := ParamImage.load_image_ok_spec host p oi om hok
  rw [hopen] at h1
  injection h1 with h1
  subst h1
  constructor
  · rw [h3]; simp
  · intro g hg
    rw [h3] at hg
    obtain ⟨f, hf, rfl⟩ := List.mem_map.mp hg
    obtain ⟨hlen, hrow⟩ := hrect f hf
    have hbd := hbound f hf
    refine ⟨by simp [frameImage, hlen], ?_⟩
    intro row hrowmem
    obtain ⟨r, hr, rfl⟩ := List.mem_map.mp hrowmem
    refine ⟨by simp [hrow r hr], ?_⟩
    intro px hpx
    obtain ⟨q, hq, rfl⟩ := List.mem_map.mp hpx
    refine ⟨rfl, ?_⟩
    intro v hv
    have hqb := hbd r hr q hq
    simp only [normalizePixel, List.mem_cons, List.mem_singleton,
      List.not_mem_nil, or_false] at hv
    rcases hv with rfl | rfl | rfl
    · exact key _ hqb.1
    · exact key _ hqb.2.1
    · exact key _ hqb.2.2

theorem load_image_tensor_shape_witness :
    ParamImage.load_image hostW7 "/a.png" = Except.ok (w7oi, w7om) ∧
    (∀ g ∈ w7oi, g.length = 1 ∧
      ∀ row ∈ g, row.length = 1 ∧
        ∀ px ∈ row, px.length = 3 ∧
          ∀ v ∈ px, 0 ≤ v ∧ v ≤ 1 ∧ ∃ n : Nat, n ≤ 255 ∧ v = (n : ℚ) / 255) := by
  have hok : ParamImage.load_image hostW7 "/a.png" = Except.ok (w7oi, w7om) := by rfl
  have h := load_image_tensor_shape hostW7 "/a.png" w7oi w7om [frameW7] 1 1 hok rfl
    (by decide) (by decide)
  exact ⟨hok, h.2⟩

/-! ## Single-frame stacking equivalence -/

/-- C8: when the resolved file decodes to exactly one frame, `load_image`
(which skips `torch.cat` and takes the lists' only elements) returns the
very tensors that `load_image_stacked` (which always concatenates the
one-element frame lists along the frame axis) returns. -/
theorem load_image_single_frame_stack_equiv (host : Host) (p : String)
    (img : List PILFrame)
    (hopen : host.openImage (ParamImage.resolve host.base_path p) = some img)
    (hone : img.length = 1) :
    ParamImage.load_image host p = ParamImage.load_image_stacked host p := by
  obtain ⟨f, rfl⟩ : ∃ f, img = [f] := by
    cases img with
    | nil => simp at hone
    | cons f rest =>
      cases rest with
      | nil => exact ⟨f, rfl⟩
      | cons g t => simp at hone
  rw [ParamImage.load_image_eq_core, ParamImage.load_image_stacked_eq]
  unfold ParamImage.loadCore
  by_cases hpe : host.pathExists (ParamImage.resolve host.base_path p) = false
  · simp only [if_pos hpe]
  · simp only [if_neg hpe]
    rw [hopen]
    simp [torchCat_singleton]

theorem load_image_single_frame_stack_equiv_witness :
    ParamImage.load_image hostW8 "/a.png" = ParamImage.load_image_stacked hostW8 "/a.png" :=
  load_image_single_frame_stack_equiv hostW8 "/a.png" [frameW8] rfl rfl

/-! ## Mask spatial dimensions are not tied to the image's -/

/-- C10: a frame with no alpha band gets the fixed all-zero 64×64 mask
whatever its own size, and on a concrete 2×2 opaque single-frame input
`load_image` returns an image entry of dimensions 2×2 next to a mask
entry of dimensions 64×64 — the mask does not share the image's spatial
dimensions. -/
theorem load_image_mask_dims_independent :
    (∀ f : PILFrame, f.alphaCh = none →
      frameMask f = List.replicate 64 (List.replicate 64 (0 : ℚ))) ∧
    ParamImage.load_image hostW10 "/a.png" =
      Except.ok ([frameImage (exif_transpose opaque2x2)], [zeros64]) ∧
    gridDims (frameImage (exif_transpose opaque2x2)) = (2, 2) ∧
    gridDims zeros64 = (64, 64) ∧
    ((2, 2) : Nat × Nat) ≠ (64, 64) := by
  refine ⟨?_, by rfl, by rfl, by rfl, by decide⟩
  intro f hf
  simp [frameMask, hf, zeros64]

theorem load_image_mask_dims_independent_witness :
    opaque2x2.alphaCh = none ∧
    frameMask opaque2x2 = List.replicate 64 (List.replicate 64 (0 : ℚ)) :=
  ⟨rfl, load_image_mask_dims_independent.1 opaque2x2 rfl⟩
